import Mathlib

/-!
Shallow embedding of `pylogkit` (`src/pylogkit/log_setup.py`): the
thread-local context store (`set_log_context`, `clear_log_context`,
`get_log_context`), record enrichment (`ContextFilter`), the human
renderer's context-field selection (`SmartFieldFormatter`), the
`setup_logging` configuration function, and the `log_duration` timing
decorator.  Python dicts of context fields are modelled as partial maps
`String → Option Val`; the thread-local store is a map from thread id
to such a dict; process environment inputs (hostname, `APP_ENV`, pid)
are a record passed explicitly.
-/

namespace Pylogkit

/-- A context value: Python context fields in this code are strings or
integers (`os.getpid()` returns an int). -/
inductive Val where
  | str (s : String)
  | int (n : Int)
deriving DecidableEq, Repr

/-- A Python dict of context fields, as a partial map. -/
def Ctx : Type := String → Option Val

/-- The empty dict (a fresh thread's context / after `clear_log_context`). -/
def emptyCtx : Ctx := fun _ => none

/-- Build a dict from keyword arguments (a finite key/value list; first
binding of a key wins, keyword argument keys are distinct). -/
def dictOf (l : List (String × Val)) : Ctx :=
  fun k => (l.find? (fun p => p.1 = k)).map Prod.snd

/-- Python `d.setdefault(k, v)`: insert `v` at `k` only when `k` is absent. -/
def dictSetdefault (d : Ctx) (k : String) (v : Val) : Ctx :=
  fun q => if q = k then some ((d k).getD v) else d q

/-- Python `d.update(e)` for a keyword-argument map `e`: keys of `e` win. -/
def dictUpdateL (d : Ctx) (l : List (String × Val)) : Ctx :=
  fun k => ((l.find? (fun p => p.1 = k)).map Prod.snd).orElse (fun _ => d k)

/-- The process environment read by `get_log_context`:
`socket.gethostname()`, `os.getenv("APP_ENV")` and `os.getpid()`. -/
structure EnvState where
  hostname : String
  appEnv : Option String
  pid : Int
deriving DecidableEq, Repr

/-- `get_log_context` (log_setup.py lines 60-69): copy the current
thread's dict and `setdefault` the six standard fields. -/
def get_log_context (env : EnvState) (d : Ctx) : Ctx :=
  let c := d
  let c := dictSetdefault c "user_id" (Val.str "-")
  let c := dictSetdefault c "session_id" (Val.str "-")
  let c := dictSetdefault c "request_id" (Val.str "-")
  let c := dictSetdefault c "hostname" (Val.str env.hostname)
  let c := dictSetdefault c "env" (Val.str (env.appEnv.getD "dev"))
  let c := dictSetdefault c "pid" (Val.int env.pid)
  c

/-- The default value `get_log_context` supplies for key `k` when the
stored dict lacks it. -/
def defaultFor (env : EnvState) (k : String) : Option Val :=
  if k = "user_id" then some (Val.str "-")
  else if k = "session_id" then some (Val.str "-")
  else if k = "request_id" then some (Val.str "-")
  else if k = "hostname" then some (Val.str env.hostname)
  else if k = "env" then some (Val.str (env.appEnv.getD "dev"))
  else if k = "pid" then some (Val.int env.pid)
  else none

theorem get_log_context_apply (env : EnvState) (d : Ctx) (k : String) :
    get_log_context env d k = (d k).orElse (fun _ => defaultFor env k) := by
  by_cases h1 : k = "user_id"
  · subst h1; cases h : d "user_id" <;>
      simp [get_log_context, dictSetdefault, defaultFor, h, Option.orElse]
  by_cases h2 : k = "session_id"
  · subst h2; cases h : d "session_id" <;>
      simp [get_log_context, dictSetdefault, defaultFor, h, Option.orElse]
  by_cases h3 : k = "request_id"
  · subst h3; cases h : d "request_id" <;>
      simp [get_log_context, dictSetdefault, defaultFor, h, Option.orElse]
  by_cases h4 : k = "hostname"
  · subst h4; cases h : d "hostname" <;>
      simp [get_log_context, dictSetdefault, defaultFor, h, Option.orElse]
  by_cases h5 : k = "env"
  · subst h5; cases h : d "env" <;>
      simp [get_log_context, dictSetdefault, defaultFor, h, Option.orElse]
  by_cases h6 : k = "pid"
  · subst h6; cases h : d "pid" <;>
      simp [get_log_context, dictSetdefault, defaultFor, h, Option.orElse]
  cases h : d k <;>
    simp [get_log_context, dictSetdefault, defaultFor, h, h1, h2, h3, h4, h5, h6,
      Option.orElse]

theorem get_log_context_stored (env : EnvState) (d : Ctx) (k : String) (v : Val)
    (h : d k = some v) : get_log_context env d k = some v := by
  rw [get_log_context_apply, h]; rfl

/-- The thread-local store `_log_context`: each thread id owns its dict. -/
def Store : Type := Nat → Ctx

/-- The store of a fresh process: every thread's context is empty. -/
def emptyStore : Store := fun _ => emptyCtx

/-- `set_log_context(**kwargs)` executed on thread `t`: replace that
thread's dict wholesale. -/
def set_log_context (t : Nat) (f : Ctx) (s : Store) : Store :=
  fun q => if q = t then f else s q

/-- `clear_log_context()` executed on thread `t`. -/
def clear_log_context (t : Nat) (s : Store) : Store :=
  fun q => if q = t then emptyCtx else s q

/-- `ContextualLoggerAdapter.with_context(**context)` executed on thread
`t`: snapshot the defaulted context, overlay `context`, store it back. -/
def with_context (env : EnvState) (t : Nat) (context : List (String × Val))
    (s : Store) : Store :=
  let prev := get_log_context env (s t)
  let combined := dictUpdateL prev context
  set_log_context t combined s

/-- A log record: fixed formatting attributes plus the dynamic attribute
dict that `ContextFilter` writes into (`setattr`). -/
structure LogRecord where
  levelname : String
  levelno : Nat
  name : String
  msg : String
  attrs : Ctx

/-- The severity→emoji table of `ContextFilter.filter`. -/
def emoji_map (levelname : String) : String :=
  if levelname = "DEBUG" then "🐛"
  else if levelname = "INFO" then "ℹ️"
  else if levelname = "WARNING" then "⚠️"
  else if levelname = "ERROR" then "❌"
  else if levelname = "CRITICAL" then "💥"
  else if levelname = "SYSTEM" then "🖥️"
  else if levelname = "SECURITY" then "🔐"
  else if levelname = "NETWORK" then "🌐"
  else if levelname = "DATABASE" then "🗄️"
  else if levelname = "STARTUP" then "🚀"
  else if levelname = "SHUTDOWN" then "🛑"
  else ""

/-- `ContextFilter.filter` on a record emitted while the current thread's
stored dict is `d`: setattr every item of `get_log_context()`, then the
emoji attribute. -/
def context_filter (env : EnvState) (d : Ctx) (r : LogRecord) : LogRecord :=
  { r with attrs := fun k =>
      if k = "emoji" then some (Val.str (emoji_map r.levelname))
      else (get_log_context env d k).orElse (fun _ => r.attrs k) }

/-- Enrichment of an emission made on thread `t`: the logger's
`ContextFilter` runs with the emitting thread's stored context. -/
def emit (env : EnvState) (s : Store) (t : Nat) (r : LogRecord) : LogRecord :=
  context_filter env (s t) r

/-- Python truthiness of a context value (the `v` in `if v and v != "-"`). -/
def pyTruthy : Val → Bool
  | Val.str s => s ≠ ""
  | Val.int n => n ≠ 0

/-- Python `v == "-"`: an int never equals the string `"-"`. -/
def isDash : Val → Bool
  | Val.str s => s = "-"
  | Val.int _ => false

/-- Python `f"{v}"`. -/
def valRender : Val → String
  | Val.str s => s
  | Val.int n => toString n

/-- The six keys `SmartFieldFormatter.format` iterates over. -/
def sixKeys : List String :=
  ["user_id", "session_id", "request_id", "hostname", "env", "pid"]

/-- `getattr(record, key)` after `SmartFieldFormatter.format` has set each
missing key of the six to `""`. -/
def recGetOrEmpty (r : LogRecord) (k : String) : Val :=
  (r.attrs k).getD (Val.str "")

/-- The `field_map` built by `SmartFieldFormatter.format`. -/
def smart_field_map (r : LogRecord) : List (String × Val) :=
  sixKeys.map (fun k => (k, recGetOrEmpty r k))

/-- The guard `if v and v != "-"` of `SmartFieldFormatter.format`. -/
def smartKeep (v : Val) : Bool := pyTruthy v && !(isDash v)

/-- The `dynamic_fields` list: one `[k=v]` entry per kept field. -/
def dynamic_fields (r : LogRecord) : List String :=
  (smart_field_map r).filterMap (fun p =>
    if smartKeep p.2 then some ("[" ++ p.1 ++ "=" ++ valRender p.2 ++ "]") else none)

/-- The keys that appear in the bracketed context list. -/
def bracketedKeys (r : LogRecord) : List String :=
  (smart_field_map r).filterMap (fun p => if smartKeep p.2 then some p.1 else none)

/-- `record.context = " ".join(dynamic_fields)`. -/
def record_context (r : LogRecord) : String :=
  String.intercalate " " (dynamic_fields r)

/-- `logging.Formatter("[%(levelname)s] %(message)s")`: the compact
console format renders severity and message only. -/
def renderCompact (r : LogRecord) : String :=
  "[" ++ r.levelname ++ "] " ++ r.msg

/-- The formatter objects `setup_logging` can attach to a handler. -/
inductive FormatterKind where
  /-- `SmartFieldFormatter` with the colourised verbose console format. -/
  | smartColor
  /-- `logging.Formatter("[%(levelname)s] %(message)s")`. -/
  | compact
  /-- `SmartFieldFormatter(log_format_verbose)` used for the file sink. -/
  | smartPlain
  /-- `jsonlogger.JsonFormatter(json_ensure_ascii=False)`. -/
  | json
  /-- `"%(name)s[%(process)d]: %(levelname)s %(message)s"`. -/
  | syslogFmt
deriving DecidableEq, Repr

/-- The four handler species `setup_logging` can register. -/
inductive HandlerKind where
  | console
  | file
  | jsonFile
  | syslog
deriving DecidableEq, Repr

/-- One registered handler: its species, the level string passed to
`setLevel`, its formatter, and — for file-based handlers — the mode the
destination file is opened with. -/
structure Handler where
  kind : HandlerKind
  level : String
  formatter : FormatterKind
  openMode : Option String
deriving DecidableEq, Repr

/-- Python `a or b` for an optional level string: `None` and `""` are falsy. -/
def pyOr (o : Option String) (d : String) : String :=
  match o with
  | none => d
  | some s => if s = "" then d else s

/-- Python truthiness of an optional path string (`if to_file and file_path:`). -/
def pyTruthyOptStr (o : Option String) : Bool :=
  match o with
  | none => false
  | some s => s ≠ ""

/-- The arguments of `setup_logging`, plus whether the optional
`pythonjsonlogger` import succeeded (`jsonlogger` is not `None`). -/
structure SetupArgs where
  name : Option String := none
  overwrite : Bool := false
  to_console : Bool := true
  to_file : Bool := false
  file_path : Option String := some "app.log"
  to_json_file : Bool := false
  json_file_path : Option String := some "app.json.log"
  to_syslog : Bool := false
  level : String := "INFO"
  console_level : Option String := none
  file_level : Option String := none
  json_level : Option String := none
  syslog_level : Option String := none
  mode : String := "verbose"
  use_json : Bool := false
  rotation : String := "size"
  max_bytes : Nat := 5 * 1024 * 1024
  backup_count : Nat := 2
  context : List (String × Val) := []
  jsonloggerInstalled : Bool := true

/-- The dead local `mode = 'w' if overwrite else 'a'` computed inside each
file branch of `setup_logging`; it is never passed to the handler
constructors. -/
def intendedFileMode (overwrite : Bool) : String :=
  if overwrite then "w" else "a"

/-- Formatter selection in `setup_logging` (lines 173-239): when the
`pythonjsonlogger` import succeeded, the verbose `SmartFieldFormatter`
branch is taken unconditionally; `mode == "compact"` is consulted only
in the `elif`. -/
def chooseConsoleFormatter (jsonloggerInstalled : Bool) (mode : String) :
    FormatterKind :=
  if jsonloggerInstalled then FormatterKind.smartColor
  else if mode = "compact" then FormatterKind.compact
  else FormatterKind.smartColor

/-- What `setup_logging` produces: the logger's own level, the handler
list, and the thread-local store after the `context` argument is applied. -/
structure SetupResult where
  loggerLevel : Nat
  handlers : List Handler
  store : Store

/-- `setup_logging` (lines 140-278) executed on thread `t` with store `s`.
The logger's own level is always `logging.DEBUG = 10`.  A non-empty
`context` argument is passed to `set_log_context(**context)`.
`RotatingFileHandler` and `TimedRotatingFileHandler` are constructed
without a `mode` argument, so file-based handlers open their file in
the default append mode `"a"` whatever `overwrite` says (the local
`intendedFileMode` value is computed and dropped). -/
def setup_logging (a : SetupArgs) (s : Store) (t : Nat) : SetupResult :=
  let s1 := if a.context.isEmpty then s else set_log_context t (dictOf a.context) s
  let formatter := chooseConsoleFormatter a.jsonloggerInstalled a.mode
  let consoleHandlers :=
    if a.to_console then
      [{ kind := HandlerKind.console, level := (pyOr a.console_level a.level).toUpper,
         formatter := formatter, openMode := none }]
    else []
  let fileHandlers :=
    if a.to_file && pyTruthyOptStr a.file_path then
      [{ kind := HandlerKind.file, level := (pyOr a.file_level a.level).toUpper,
         formatter := FormatterKind.smartPlain,
         openMode := some (let _ := intendedFileMode a.overwrite; "a") }]
    else []
  let jsonHandlers :=
    if a.to_json_file && pyTruthyOptStr a.json_file_path && a.jsonloggerInstalled then
      [{ kind := HandlerKind.jsonFile, level := (pyOr a.json_level a.level).toUpper,
         formatter := FormatterKind.json,
         openMode := some (let _ := intendedFileMode a.overwrite; "a") }]
    else []
  let syslogHandlers :=
    if a.to_syslog then
      [{ kind := HandlerKind.syslog, level := (pyOr a.syslog_level a.level).toUpper,
         formatter := FormatterKind.syslogFmt, openMode := none }]
    else []
  { loggerLevel := 10,
    handlers := consoleHandlers ++ fileHandlers ++ jsonHandlers ++ syslogHandlers,
    store := s1 }

/-- The per-sink level argument of `setup_logging` that belongs to each
handler species. -/
def perSinkLevel (a : SetupArgs) : HandlerKind → Option String
  | HandlerKind.console => a.console_level
  | HandlerKind.file => a.file_level
  | HandlerKind.jsonFile => a.json_level
  | HandlerKind.syslog => a.syslog_level

/-- Numeric values of the five standard logging levels. -/
def levelToNum (s : String) : Nat :=
  if s = "DEBUG" then 10
  else if s = "INFO" then 20
  else if s = "WARNING" then 30
  else if s = "ERROR" then 40
  else if s = "CRITICAL" then 50
  else 0

/-- A record reaches a handler's destination iff it passes the logger
object's own level and then the handler's level (the two severity
filters of the logging runtime). -/
def handler_emits (loggerLevel : Nat) (h : Handler) (r : LogRecord) : Bool :=
  (decide (loggerLevel ≤ r.levelno)) && (decide (levelToNum h.level ≤ r.levelno))

/-- `log_duration(logger, level)` applied to a function modelled as
`Nat → Except String Nat` (a raised exception is `Except.error`): the
wrapper reads the clock, calls the function — a raise propagates out of
the wrapper here, before any logging — and only after a normal return
logs the duration line.  The result is the list of lines the decorator
logged, paired with the wrapped call's outcome as seen by the caller.
`durationStr` stands for the opaque formatted wall-clock reading. -/
def log_duration_wrapper (func : Nat → Except String Nat) (funcName : String)
    (durationStr : String) (a : Nat) : List String × Except String Nat :=
  match func a with
  | Except.error e => ([], Except.error e)
  | Except.ok r =>
      ([funcName ++ " took " ++ durationStr ++ " seconds"], Except.ok r)

/-! Concrete instantiation data shared by witnesses and counterexamples. -/

/-- A concrete process environment. -/
def envC : EnvState := { hostname := "hostA", appEnv := some "prod", pid := 4242 }

/-- The same process environment after `APP_ENV` changed. -/
def envC2 : EnvState := { hostname := "hostA", appEnv := some "staging", pid := 4242 }

/-- A process environment with `APP_ENV` unset. -/
def envN : EnvState := { hostname := "hostB", appEnv := none, pid := 9 }

/-- A raw record as created at emission time, before enrichment. -/
def rawRecord : LogRecord :=
  { levelname := "INFO", levelno := 20, name := "app", msg := "hi", attrs := emptyCtx }

/-! Helper lemmas shared by several claim proofs. -/

theorem orElse_none_right (o : Option Val) : (o.orElse fun _ => none) = o := by
  cases o <;> rfl

theorem isSome_orElse_some (o : Option Val) (v : Val) (f : Unit → Option Val) :
    ((o.orElse fun _ => some v).orElse f).isSome = true := by
  cases o <;> rfl

theorem orElse_eq_none_iff (o : Option Val) (f : Unit → Option Val) :
    o.orElse f = none ↔ o = none ∧ f () = none := by
  cases o <;> simp [Option.orElse]

theorem defaultFor_none_iff (env env' : EnvState) (k : String) :
    defaultFor env k = none ↔ defaultFor env' k = none := by
  unfold defaultFor
  split_ifs <;> simp

/-- C8: every context snapshot, and hence every enriched record, carries
the six keys `user_id`, `session_id`, `request_id`, `hostname`, `env`,
`pid`; the first three default to the placeholder `"-"` when not set. -/
theorem C8_six_keys_always_present (env : EnvState) (d : Ctx) (r : LogRecord)
    (k : String) :
    (k ∈ sixKeys → ((context_filter env d r).attrs k).isSome = true) ∧
    (k ∈ ["user_id", "session_id", "request_id"] → d k = none →
      (context_filter env d r).attrs k = some (Val.str "-")) := by
  constructor
  · intro hk
    fin_cases hk <;>
      simp [context_filter, get_log_context_apply, defaultFor, isSome_orElse_some]
  · intro hk hd
    fin_cases hk <;>
      simp_all [context_filter, get_log_context_apply, defaultFor, Option.orElse]

/-- Witness for C8 at a concrete environment, empty stored context and a
raw record. -/
theorem C8_six_keys_always_present_witness :
    ((context_filter envC emptyCtx rawRecord).attrs "pid").isSome = true ∧
    (context_filter envC emptyCtx rawRecord).attrs "user_id" = some (Val.str "-") := by
  have h1 := C8_six_keys_always_present envC emptyCtx rawRecord "pid"
  have h2 := C8_six_keys_always_present envC emptyCtx rawRecord "user_id"
  exact ⟨h1.1 (by decide), h2.2 (by decide) rfl⟩

/-- C7 counterexample: the default fields are not cached.  With the same
(empty) stored context, two snapshot reads under different values of
`APP_ENV` return different `env` fields, refuting "computed once per
process and cached ... same values even if APP_ENV changes". -/
theorem C7_counterexample :
    get_log_context envC emptyCtx "env" = some (Val.str "prod") ∧
    get_log_context envC2 emptyCtx "env" = some (Val.str "staging") ∧
    get_log_context envC emptyCtx "env" ≠ get_log_context envC2 emptyCtx "env" := by
  decide

/-- C7 amended: `get_log_context` recomputes the default fields on every
snapshot read — the `env` field tracks the value of `APP_ENV` at read
time, falling back to the literal `"dev"` when it is unset — and the
keys `hostname`, `env`, `pid` are present in every enriched record. -/
theorem C7_fresh_defaults (env : EnvState) (d : Ctx) (r : LogRecord) :
    (d "env" = none →
      (context_filter env d r).attrs "env" = some (Val.str (env.appEnv.getD "dev"))) ∧
    (∀ k, k ∈ ["hostname", "env", "pid"] →
      ((context_filter env d r).attrs k).isSome = true) := by
  constructor
  · intro hd
    simp [context_filter, get_log_context_apply, defaultFor, hd, Option.orElse]
  · intro k hk
    fin_cases hk <;>
      simp [context_filter, get_log_context_apply, defaultFor, isSome_orElse_some]

/-- Witness for C7 amended: with `APP_ENV` unset the enriched record's
`env` field is the literal `"dev"`. -/
theorem C7_fresh_defaults_witness :
    (context_filter envN emptyCtx rawRecord).attrs "env" = some (Val.str "dev") ∧
    ((context_filter envN emptyCtx rawRecord).attrs "hostname").isSome = true := by
  have h := C7_fresh_defaults envN emptyCtx rawRecord
  exact ⟨h.1 rfl, h.2 "hostname" (by decide)⟩

/-- C1: context isolation across threads.  Setting context on thread `a`
(via `set_log_context` or `with_context`) leaves an emission on a
different thread `b` bit-for-bit unchanged; if thread `b` never set
`user_id`, its enriched record carries the placeholder `"-"` there (so
thread A's `user_id=bob` cannot appear); and an emission on thread `a`
after `set_log_context(**f)` carries exactly the fields of `f` plus the
computed defaults. -/
theorem C1_thread_isolation (env env2 : EnvState) (a b : Nat)
    (f g : List (String × Val)) (s : Store) (r : LogRecord) (hab : a ≠ b) :
    emit env (set_log_context a (dictOf f) s) b r = emit env s b r ∧
    emit env (with_context env2 a g s) b r = emit env s b r ∧
    ((s b) "user_id" = none →
      (emit env (set_log_context a (dictOf f) s) b r).attrs "user_id"
        = some (Val.str "-")) ∧
    (r.attrs = emptyCtx → ∀ k, k ≠ "emoji" →
      (emit env (set_log_context a (dictOf f) s) a r).attrs k
        = (dictOf f k).orElse (fun _ => defaultFor env k)) := by
  have hba : b ≠ a := Ne.symm hab
  refine ⟨?_, ?_, ?_, ?_⟩
  · simp [emit, set_log_context, hba]
  · simp [emit, with_context, set_log_context, hba]
  · intro hub
    simp [emit, set_log_context, context_filter, hba, get_log_context_apply,
      defaultFor, hub, Option.orElse]
  · intro hr k hk
    simp [emit, set_log_context, context_filter, hk, hr, get_log_context_apply,
      emptyCtx, orElse_none_right]

/-- Witness for C1 at the spec's scenario: thread 0 sets
`user_id="bob"`, thread 1 has no context; thread 1's enriched record
still carries `user_id = "-"`. -/
theorem C1_thread_isolation_witness :
    (emit envC (set_log_context 0 (dictOf [("user_id", Val.str "bob")]) emptyStore)
        1 rawRecord).attrs "user_id" = some (Val.str "-") :=
  (C1_thread_isolation envC envC 0 1 [("user_id", Val.str "bob")] [] emptyStore
    rawRecord (by decide)).2.2.1 rfl

/-- C9: `with_context` writes the fully defaulted snapshot back into the
thread's store — the new stored dict is the prior snapshot (defaults
materialized from the environment at that moment) overlaid with the
given fields — and those materialized defaults are sticky: a later
snapshot under any other environment returns the stored values
unchanged, while after `clear_log_context` the defaults are recomputed
from the then-current environment. -/
theorem C9_with_context_materializes_defaults (env env' : EnvState) (t : Nat)
    (f : List (String × Val)) (s : Store) (k : String) :
    (with_context env t f s) t k
      = ((f.find? (fun p => p.1 = k)).map Prod.snd).orElse
          (fun _ => get_log_context env (s t) k) ∧
    get_log_context env' ((with_context env t f s) t) k
      = (with_context env t f s) t k ∧
    (∀ s' : Store, get_log_context env' ((clear_log_context t s') t) k
      = defaultFor env' k) := by
  have hwc : (with_context env t f s) t = dictUpdateL (get_log_context env (s t)) f := by
    simp [with_context, set_log_context]
  refine ⟨by rw [hwc]; rfl, ?_, ?_⟩
  · rw [get_log_context_apply]
    cases hc : (with_context env t f s) t k with
    | some v => rfl
    | none =>
      rw [hwc] at hc
      have h2 := (orElse_eq_none_iff _ _).mp hc
      rw [get_log_context_apply] at h2
      have h3 := (orElse_eq_none_iff _ _).mp h2.2
      simp [Option.orElse, (defaultFor_none_iff env env' k).mp h3.2]
  · intro s'
    simp [clear_log_context, get_log_context_apply, emptyCtx, Option.orElse]

theorem mem_bracketedKeys_iff (r : LogRecord) (k : String) :
    k ∈ bracketedKeys r ↔ k ∈ sixKeys ∧ smartKeep (recGetOrEmpty r k) = true := by
  unfold bracketedKeys smart_field_map
  constructor
  · intro h
    rcases List.mem_filterMap.mp h with ⟨p, hp, heq⟩
    rcases List.mem_map.mp hp with ⟨k', hk', rfl⟩
    by_cases hc : smartKeep (recGetOrEmpty r k') = true
    · simp only [hc, if_true, Option.some.injEq] at heq
      subst heq
      exact ⟨hk', hc⟩
    · simp [hc] at heq
  · rintro ⟨hk, hkeep⟩
    exact List.mem_filterMap.mpr
      ⟨(k, recGetOrEmpty r k), List.mem_map.mpr ⟨k, hk, rfl⟩, by simp [hkeep]⟩

/-- C2 counterexample: the bracketed context list does not contain every
non-empty, non-placeholder context field of the enriched record.  Set
the custom context field `team="x"`: it is a context field of the
enriched record, non-empty and not `"-"`, yet absent from the bracketed
list (only the six standard keys are ever bracketed). -/
theorem C2_counterexample :
    (context_filter envC (dictOf [("team", Val.str "x")]) rawRecord).attrs "team"
      = some (Val.str "x") ∧
    smartKeep (Val.str "x") = true ∧
    "team" ∉ bracketedKeys (context_filter envC (dictOf [("team", Val.str "x")]) rawRecord) := by
  decide

/-- C2 amended: among the six standard context fields (`user_id`,
`session_id`, `request_id`, `hostname`, `env`, `pid`), the bracketed
context list of the human renderer contains exactly those whose value
is truthy (non-empty / non-zero) and not the placeholder `"-"`; a field
whose value is empty or `"-"` is omitted entirely. -/
theorem C2_bracket_exactly_nonempty (env : EnvState) (d : Ctx) (r : LogRecord)
    (k : String) (v : Val) (hk : k ∈ sixKeys)
    (hv : get_log_context env d k = some v) :
    (k ∈ bracketedKeys (context_filter env d r) ↔ smartKeep v = true) ∧
    (smartKeep v = false → k ∉ bracketedKeys (context_filter env d r)) := by
  have hne : k ≠ "emoji" := by
    have hall : ∀ x ∈ sixKeys, x ≠ "emoji" := by decide
    exact hall k hk
  have hattr : (context_filter env d r).attrs k = some v := by
    simp [context_filter, hne, hv, Option.orElse]
  have hrec : recGetOrEmpty (context_filter env d r) k = v := by
    simp [recGetOrEmpty, hattr]
  have hiff : k ∈ bracketedKeys (context_filter env d r) ↔ smartKeep v = true := by
    rw [mem_bracketedKeys_iff, hrec]
    exact ⟨fun h => h.2, fun h => ⟨hk, h⟩⟩
  exact ⟨hiff, fun hf => fun hmem => by simp [hiff.mp hmem] at hf⟩

/-- Witness for C2 amended: `user_id="bob"` is bracketed, while the
placeholder-valued `session_id="-"` is omitted. -/
theorem C2_bracket_exactly_nonempty_witness :
    ("user_id" ∈ bracketedKeys
        (context_filter envC (dictOf [("user_id", Val.str "bob")]) rawRecord)
      ↔ smartKeep (Val.str "bob") = true) ∧
    (smartKeep (Val.str "-") = false → "session_id" ∉ bracketedKeys
        (context_filter envC (dictOf [("user_id", Val.str "bob")]) rawRecord)) := by
  have h1 := C2_bracket_exactly_nonempty envC (dictOf [("user_id", Val.str "bob")])
    rawRecord "user_id" (Val.str "bob") (by decide) (by decide)
  have h2 := C2_bracket_exactly_nonempty envC (dictOf [("user_id", Val.str "bob")])
    rawRecord "session_id" (Val.str "-") (by decide) (by decide)
  exact ⟨h1.1, h2.2⟩

/-- C3 counterexample: when the wrapped function raises, `log_duration`
logs nothing — the body has no try/finally, so the call exits before
the logging line is reached.  Here the wrapper's log output is empty,
refuting "the duration line is still logged". -/
theorem C3_counterexample :
    (log_duration_wrapper (fun _ => Except.error "boom") "work" "1.0000" 0).1 = [] ∧
    (log_duration_wrapper (fun _ => Except.error "boom") "work" "1.0000" 0).2
      = Except.error "boom" :=
  ⟨rfl, rfl⟩

/-- C3 amended: if the wrapped function raises, the original exception
propagates unchanged to the decorator's caller but no duration line is
logged; the duration line is logged exactly when the wrapped function
returns normally, in which case its result is returned unchanged. -/
theorem C3_duration_on_success_only (func : Nat → Except String Nat)
    (funcName durationStr : String) (a : Nat) :
    (∀ e, func a = Except.error e →
      log_duration_wrapper func funcName durationStr a = ([], Except.error e)) ∧
    (∀ rv, func a = Except.ok rv →
      log_duration_wrapper func funcName durationStr a
        = ([funcName ++ " took " ++ durationStr ++ " seconds"], Except.ok rv)) := by
  constructor <;> intro x h <;> simp [log_duration_wrapper, h]

/-- Witness for C3 amended at a concrete raising function. -/
theorem C3_duration_on_success_only_witness :
    log_duration_wrapper (fun _ => Except.error "fail") "job" "0.5000" 3
      = ([], Except.error "fail") :=
  (C3_duration_on_success_only (fun _ => Except.error "fail") "job" "0.5000" 3).1
    "fail" rfl

/-- C4: the `overwrite` flag never truncates.  `setup_logging` computes
the local `mode = 'w' if overwrite else 'a'` but never passes it to
`RotatingFileHandler` / `TimedRotatingFileHandler`, which therefore
open the destination in the default append mode `"a"`.  At the failing
input (`to_file=True`, `overwrite=True`) the file handler's open mode
is `"a"`, while the intended (dead) computation yields `"w"`. -/
theorem C4_overwrite_never_truncates :
    ((setup_logging { to_console := false, to_file := true, overwrite := true }
        emptyStore 0).handlers.map (fun h => (h.kind, h.openMode)))
      = [(HandlerKind.file, some "a")] ∧
    intendedFileMode true = "w" := by
  decide

/-- C5 counterexample: with the JSON-logging library installed,
`mode="compact"` is ignored — the first branch of the formatter
selection fires on `jsonlogger` being importable and installs the
verbose `SmartFieldFormatter`, so the console formatter is not the
compact one. -/
theorem C5_counterexample :
    chooseConsoleFormatter true "compact" = FormatterKind.smartColor ∧
    chooseConsoleFormatter true "compact" ≠ FormatterKind.compact ∧
    ((setup_logging { mode := "compact", jsonloggerInstalled := true } emptyStore 0).handlers.map
        (fun h => (h.kind, h.formatter)))
      = [(HandlerKind.console, FormatterKind.smartColor)] := by
  decide

/-- C5 amended: only when the JSON-logging library is not installed does
`mode="compact"` give the console handler the compact formatter, which
renders exactly `[SEVERITY] message`; when the library is installed the
verbose formatter is used regardless of `mode`. -/
theorem C5_compact_only_without_jsonlogger (a : SetupArgs) (s : Store) (t : Nat)
    (hm : a.mode = "compact") (hj : a.jsonloggerInstalled = false)
    (hc : a.to_console = true) :
    (∃ h, (setup_logging a s t).handlers.head? = some h ∧
      h.kind = HandlerKind.console ∧ h.formatter = FormatterKind.compact) ∧
    (∀ r : LogRecord, renderCompact r = "[" ++ r.levelname ++ "] " ++ r.msg) := by
  constructor
  · refine ⟨Handler.mk HandlerKind.console (pyOr a.console_level a.level).toUpper
        (chooseConsoleFormatter a.jsonloggerInstalled a.mode) none, ?_, rfl, ?_⟩
    · simp [setup_logging, hc]
    · simp [chooseConsoleFormatter, hm, hj]
  · intro r
    rfl

/-- Witness for C5 amended at a concrete argument record. -/
theorem C5_compact_only_without_jsonlogger_witness :
    (∃ h, (setup_logging { mode := "compact", jsonloggerInstalled := false }
        emptyStore 0).handlers.head? = some h ∧
      h.kind = HandlerKind.console ∧ h.formatter = FormatterKind.compact) ∧
    (∀ r : LogRecord, renderCompact r = "[" ++ r.levelname ++ "] " ++ r.msg) :=
  C5_compact_only_without_jsonlogger
    { mode := "compact", jsonloggerInstalled := false } emptyStore 0 rfl rfl rfl

/-- C6 counterexample: the `context` argument of `setup_logging` is
passed to `set_log_context`, which replaces the thread's stored dict
wholesale.  A previously set field `team="x"` not named in `context`
disappears, refuting "previously set context fields not named in
`context` remain unchanged". -/
theorem C6_counterexample :
    ((setup_logging { context := [("user_id", Val.str "bob")] }
        (set_log_context 0 (dictOf [("team", Val.str "x")]) emptyStore) 0).store 0) "team"
      = none ∧
    ((set_log_context 0 (dictOf [("team", Val.str "x")]) emptyStore) 0) "team"
      = some (Val.str "x") := by
  decide

/-- C6 amended: a non-empty `context` argument replaces the calling
thread's stored context wholesale with exactly the given map
(previously set fields not named in it are discarded); an empty or
absent `context` leaves the store untouched, and other threads' stores
are never touched. -/
theorem C6_setup_context_replaces (a : SetupArgs) (s : Store) (t : Nat) (k : String) :
    (a.context ≠ [] → (setup_logging a s t).store t k = dictOf a.context k) ∧
    (a.context = [] → (setup_logging a s t).store = s) ∧
    (∀ t', t' ≠ t → (setup_logging a s t).store t' = s t') := by
  refine ⟨?_, ?_, ?_⟩
  · intro hne
    have hf : a.context.isEmpty = false := by
      cases hctx : a.context <;> simp_all
    simp [setup_logging, hf, set_log_context]
  · intro hempty
    simp [setup_logging, hempty]
  · intro t' ht'
    by_cases he : a.context.isEmpty <;>
      simp [setup_logging, he, set_log_context, ht']

/-- Witness for C6 amended: with prior field `team="x"` and setup
context `user_id="bob"`, the stored context afterwards is exactly the
setup map. -/
theorem C6_setup_context_replaces_witness :
    (setup_logging { context := [("user_id", Val.str "bob")] }
        (set_log_context 0 (dictOf [("team", Val.str "x")]) emptyStore) 0).store 0 "user_id"
      = dictOf [("user_id", Val.str "bob")] "user_id" :=
  (C6_setup_context_replaces { context := [("user_id", Val.str "bob")] }
    (set_log_context 0 (dictOf [("team", Val.str "x")]) emptyStore) 0 "user_id").1
    (by decide)

theorem pyOr_eq_getD (o : Option String) (d : String) (h : o ≠ some "") :
    pyOr o d = o.getD d := by
  cases o with
  | none => rfl
  | some x =>
    have hx : x ≠ "" := fun he => h (by rw [he])
    simp [pyOr, hx]

/-- C10: `setup_logging` always sets the logger object's own level to
`DEBUG` (10) regardless of the `level` argument; each handler's floor
is its per-sink level argument or, when that is unset, the global
`level`; and for records at or above `DEBUG` (all standard levels) the
emission decision coincides with the per-handler floor check alone. -/
theorem C10_logger_debug_per_handler_floors (a : SetupArgs) (s : Store) (t : Nat)
    (hlv : ∀ hk : HandlerKind, perSinkLevel a hk ≠ some "") :
    (setup_logging a s t).loggerLevel = 10 ∧
    (∀ h ∈ (setup_logging a s t).handlers,
      h.level = ((perSinkLevel a h.kind).getD a.level).toUpper) ∧
    (∀ (h : Handler) (r : LogRecord), 10 ≤ r.levelno →
      (handler_emits (setup_logging a s t).loggerLevel h r = true
        ↔ levelToNum h.level ≤ r.levelno)) := by
  refine ⟨rfl, ?_, ?_⟩
  · intro h hm
    simp only [setup_logging, List.mem_append] at hm
    rcases hm with ((hm | hm) | hm) | hm
    · split_ifs at hm with hcond
      · rw [List.mem_singleton] at hm
        subst hm
        simp only [perSinkLevel]
        have hne := hlv HandlerKind.console
        simp only [perSinkLevel] at hne
        rw [pyOr_eq_getD _ _ hne]
      · simp at hm
    · split_ifs at hm with hcond
      · rw [List.mem_singleton] at hm
        subst hm
        simp only [perSinkLevel]
        have hne := hlv HandlerKind.file
        simp only [perSinkLevel] at hne
        rw [pyOr_eq_getD _ _ hne]
      · simp at hm
    · split_ifs at hm with hcond
      · rw [List.mem_singleton] at hm
        subst hm
        simp only [perSinkLevel]
        have hne := hlv HandlerKind.jsonFile
        simp only [perSinkLevel] at hne
        rw [pyOr_eq_getD _ _ hne]
      · simp at hm
    · split_ifs at hm with hcond
      · rw [List.mem_singleton] at hm
        subst hm
        simp only [perSinkLevel]
        have hne := hlv HandlerKind.syslog
        simp only [perSinkLevel] at hne
        rw [pyOr_eq_getD _ _ hne]
      · simp at hm
  · intro h r hr
    simp [handler_emits, setup_logging, hr]

/-- Witness for C10 at the default arguments: the logger's own level is
10 even though `level="INFO"`, and the console handler's floor is the
global level. -/
theorem C10_logger_debug_per_handler_floors_witness :
    (setup_logging {} emptyStore 0).loggerLevel = 10 ∧
    (∀ h ∈ (setup_logging {} emptyStore 0).handlers,
      h.level = ((perSinkLevel {} h.kind).getD (SetupArgs.level {})).toUpper) := by
  have hh := C10_logger_debug_per_handler_floors {} emptyStore 0
    (by intro hk; cases hk <;> simp [perSinkLevel])
  exact ⟨hh.1, hh.2.1⟩

end Pylogkit
